import Mathlib

/-!
Verification development for the `ha-wall-clock-card-pirateweather` repository.

The repository contains two copies of the `PirateWeatherProvider` adapter
(one in `src/src/weather-providers/pirateweather-provider.ts`, embedded below
as namespace `PWMain`, and one bundled in `src/unnamed/part_000`, embedded as
namespace `PWAlt`), plus the `WallClockCard` orchestrator in
`src/unnamed/part_000` (embedded as namespace `Card`).

Modelling conventions:
- JavaScript numbers are modelled as rationals (`ℚ`), `Math.round` as
  Mathlib's `round` (both are floor of `x + 1/2`).
- JavaScript `undefined`-able values are modelled as `Option`; JS truthiness
  tests on strings/numbers are modelled by explicit helpers below.
- The asynchronous `fetch` side effect is modelled by passing the single
  network outcome as an explicit argument and returning, next to the
  `Except` result, the number of outbound requests that were issued.
-/

/-- Truthiness of a possibly-absent JavaScript string: `undefined` and the
empty string are falsy (used for `!config.apiKey`, `summary || ...`). -/
def jsFalsyStr : Option String → Bool
  | none => true
  | some s => s = ""

/-- Truthiness of a possibly-absent JavaScript number: `undefined` and `0`
are falsy (used for `!config.latitude`, `!config.longitude`). -/
def jsFalsyNum : Option ℚ → Bool
  | none => true
  | some x => x = 0

/-- JavaScript `a || b` for a possibly-absent string `a`: returns `b` when
`a` is `undefined` or empty. -/
def jsOrStr (a : Option String) (b : String) : String :=
  match a with
  | none => b
  | some s => if s = "" then b else s

/-- JavaScript `a || b` on numbers: returns `b` when `a` is `0`. -/
def jsOrQ (a b : ℚ) : ℚ :=
  if a = 0 then b else a

/-- Truthiness of a possibly-absent JavaScript boolean (used for
`this.config.showWeather`): only an explicit `true` is truthy. -/
def jsTruthyBool : Option Bool → Bool
  | some true => true
  | _ => false

/-- JavaScript array indexing by a possibly negative integer index:
out-of-range access yields `undefined`, modelled as `none`. -/
def jsArrayGet (l : List String) (i : ℤ) : Option String :=
  if 0 ≤ i then l[i.toNat]? else none

/-- Modelled from the spec: the `Weather` enum (`conditionUnified`
vocabulary) is imported from `../image-sources` / `../providers/image`,
whose source is not in the repository snapshot.  The spec lists the
vocabulary Clear/Rain/Snow/Clouds/Fog/Mist/Wind/Thunderstorm/Extreme/
All-unknown; the adapter in `pirateweather-provider.ts` additionally
references a `Weather.ClearSky` member, included here.  Enum members are
treated as truthy values, as the spec's lookup-table semantics requires. -/
inductive Weather where
  | Clear
  | ClearSky
  | Rain
  | Snow
  | Clouds
  | Fog
  | Mist
  | Wind
  | Thunderstorm
  | Extreme
  | All
deriving DecidableEq

/-- Modelled from the spec: `WeatherProviderConfig` is declared in
`./types`, which is not in the repository snapshot.  Fields follow the
spec's data model and the adapter's usage (`apiKey`, `latitude`,
`longitude`, `units`); each is optional so that the "absent" case of the
spec's zero/absent convention is representable. -/
structure WeatherProviderConfig where
  apiKey : Option String
  latitude : Option ℚ
  longitude : Option ℚ
  units : Option String
deriving DecidableEq

/-- Outcome of the single outbound `fetch` call: either the promise rejects
with a transport error, or a response arrives with a status, a status text
and a body whose JSON parse may itself fail. -/
inductive FetchOutcome (α : Type) where
  | networkError (msg : String)
  | response (status : ℕ) (statusText : String) (body : Except String α)

/-- Fetch-API `response.ok`: status in the inclusive range 200–299. -/
def responseOk (status : ℕ) : Bool :=
  200 ≤ status && status < 300

namespace PWMain

/-- Vendor schema `PirateWeatherCurrently` from
`src/src/weather-providers/pirateweather-provider.ts`. -/
structure PirateWeatherCurrently where
  time : ℤ
  summary : String
  icon : String
  temperature : ℚ
  apparentTemperature : ℚ
  humidity : ℚ
  pressure : ℚ
  windSpeed : ℚ
  windGust : Option ℚ
  windBearing : ℚ
  cloudCover : ℚ
  uvIndex : ℚ

/-- Vendor schema `PirateWeatherDaily` from
`src/src/weather-providers/pirateweather-provider.ts`. -/
structure PirateWeatherDaily where
  time : ℤ
  summary : String
  icon : String
  temperatureHigh : ℚ
  temperatureLow : ℚ
  temperatureMax : ℚ
  temperatureMin : ℚ
  apparentTemperatureHigh : ℚ
  apparentTemperatureLow : ℚ
  humidity : ℚ
  pressure : ℚ
  windSpeed : ℚ
  windGust : Option ℚ
  windBearing : ℚ
  cloudCover : ℚ
  uvIndex : ℚ

/-- Vendor schema `PirateWeatherResponse.daily` block. -/
structure PirateWeatherDailyBlock where
  summary : String
  icon : String
  data : List PirateWeatherDaily

/-- Vendor schema `PirateWeatherResponse`. -/
structure PirateWeatherResponse where
  latitude : ℚ
  longitude : ℚ
  timezone : String
  currently : PirateWeatherCurrently
  daily : PirateWeatherDailyBlock

/-- Normalized `DailyWeather` (declared locally in the provider file);
`date` is the epoch-millisecond value of `new Date(day.time * 1000)`. -/
structure DailyWeather where
  date : ℤ
  temperatureMax : ℚ
  temperatureMin : ℚ
  condition : String
  conditionUnified : Weather
  icon : String
  humidity : ℚ
  pressure : ℚ
  windSpeed : ℚ
  windGust : Option ℚ
  windBearing : ℚ
  cloudCover : ℚ
  uvIndex : ℚ

/-- Normalized current conditions of the canonical `WeatherData` as built
by this adapter; `windDirection` is `Option` because for an out-of-range
array index `bearingToDirection` yields JS `undefined`. -/
structure CurrentWeather where
  temperature : ℚ
  feelsLike : ℚ
  condition : String
  conditionUnified : Weather
  icon : String
  humidity : ℚ
  pressure : ℚ
  windSpeed : ℚ
  windDirection : Option String

/-- Canonical `WeatherData` as built by this adapter. -/
structure WeatherData where
  current : CurrentWeather
  daily : List DailyWeather

/-- Source: `getDefaultConfig` (lines 73–80). -/
def getDefaultConfig : WeatherProviderConfig :=
  { apiKey := some ""
    latitude := some 0
    longitude := some 0
    units := some "metric" }

/-- Source: `mapUnits` (lines 113–120): `unitsMap[units] || 'si'`. -/
def mapUnits (units : String) : String :=
  (([("metric", "si"), ("imperial", "us")] : List (String × String)).lookup units).getD "si"

/-- Source: `formatCondition` (lines 230–232): `summary || 'Unknown'`. -/
def formatCondition (summary : String) : String :=
  if summary = "" then "Unknown" else summary

/-- Static icon-to-condition table of `mapIconToCondition` (lines 173–187). -/
def iconMap : List (String × Weather) :=
  [("clear-day", Weather.ClearSky),
   ("clear-night", Weather.ClearSky),
   ("rain", Weather.Rain),
   ("snow", Weather.Snow),
   ("sleet", Weather.Snow),
   ("wind", Weather.Clouds),
   ("fog", Weather.Mist),
   ("cloudy", Weather.Clouds),
   ("partly-cloudy-day", Weather.Clouds),
   ("partly-cloudy-night", Weather.Clouds),
   ("hail", Weather.Snow),
   ("thunderstorm", Weather.Rain),
   ("tornado", Weather.Clouds)]

/-- Source: `mapIconToCondition` (lines 172–190): `iconMap[icon] || Weather.All`. -/
def mapIconToCondition (icon : String) : Weather :=
  (iconMap.lookup icon).getD Weather.All

/-- The 16 compass points of `bearingToDirection` (lines 196–197). -/
def directions : List String :=
  ["N", "NNE", "NE", "ENE", "E", "ESE", "SE", "SSE",
   "S", "SSW", "SW", "WSW", "W", "WNW", "NW", "NNW"]

/-- Source: `bearingToDirection` (lines 195–200):
`directions[Math.round(bearing / 22.5) % 16]`.  JS `%` truncates toward
zero (`Int.tmod`); a negative index reads as `undefined`. -/
def bearingToDirection (bearing : ℚ) : Option String :=
  jsArrayGet directions (Int.tmod (round (bearing / (45/2))) 16)

/-- Static icon-to-URL fragment table of `getIconUrl` (lines 207–221). -/
def iconMapping : List (String × String) :=
  [("clear-day", "01d"),
   ("clear-night", "01n"),
   ("rain", "10d"),
   ("snow", "13d"),
   ("sleet", "13d"),
   ("wind", "50d"),
   ("fog", "50d"),
   ("cloudy", "04d"),
   ("partly-cloudy-day", "02d"),
   ("partly-cloudy-night", "02n"),
   ("hail", "09d"),
   ("thunderstorm", "11d"),
   ("tornado", "50d")]

/-- Source: `getIconUrl` (lines 205–225): OpenWeatherMap URL with
`iconMapping[icon] || '01d'` as fragment. -/
def getIconUrl (icon : String) : String :=
  "https://openweathermap.org/img/wn/" ++ ((iconMapping.lookup icon).getD "01d") ++ "@2x.png"

/-- Source: `transformDailyWeather` (lines 151–167).  This variant rounds
temperatures, humidity, pressure, cloud cover and (to one decimal) wind
speed; `day.windGust ? ... : undefined` is a JS truthiness test. -/
def transformDailyWeather (day : PirateWeatherDaily) : DailyWeather :=
  { date := day.time * 1000
    temperatureMax := (round (jsOrQ day.temperatureMax day.temperatureHigh) : ℚ)
    temperatureMin := (round (jsOrQ day.temperatureMin day.temperatureLow) : ℚ)
    condition := formatCondition day.summary
    conditionUnified := mapIconToCondition day.icon
    icon := getIconUrl day.icon
    humidity := (round (day.humidity * 100) : ℚ)
    pressure := (round day.pressure : ℚ)
    windSpeed := (round (day.windSpeed * 10) : ℚ) / 10
    windGust := match day.windGust with
      | some g => if g = 0 then none else some ((round (g * 10) : ℚ) / 10)
      | none => none
    windBearing := day.windBearing
    cloudCover := (round (day.cloudCover * 100) : ℚ)
    uvIndex := day.uvIndex }

/-- Source: `transformResponse` (lines 122–149). -/
def transformResponse (data : PirateWeatherResponse) : WeatherData :=
  { current :=
      { temperature := (round data.currently.temperature : ℚ)
        feelsLike := (round data.currently.apparentTemperature : ℚ)
        condition := formatCondition data.currently.summary
        conditionUnified := mapIconToCondition data.currently.icon
        icon := getIconUrl data.currently.icon
        humidity := (round (data.currently.humidity * 100) : ℚ)
        pressure := (round data.currently.pressure : ℚ)
        windSpeed := (round (data.currently.windSpeed * 10) : ℚ) / 10
        windDirection := bearingToDirection data.currently.windBearing }
    daily := (data.daily.data.take 7).map transformDailyWeather }

/-- Source: `fetchWeatherAsync` (lines 82–111).  The second component of
the result counts outbound `fetch` calls.  The two thrown strings of the
`try` block (`response.ok` failure and the JSON-parse rejection) are both
`Error`s, so the `catch` re-wraps them with the stable
`Failed to fetch Pirate Weather data: ` head. -/
def fetchWeatherAsync (config : WeatherProviderConfig)
    (net : FetchOutcome PirateWeatherResponse) :
    Except String WeatherData × ℕ :=
  if jsFalsyStr config.apiKey then
    (Except.error "Pirate Weather API key is required", 0)
  else if jsFalsyNum config.latitude || jsFalsyNum config.longitude then
    (Except.error "Latitude and longitude are required", 0)
  else
    match net with
    | FetchOutcome.networkError msg =>
        (Except.error ("Failed to fetch Pirate Weather data: " ++ msg), 1)
    | FetchOutcome.response status statusText body =>
        if !responseOk status then
          (Except.error ("Failed to fetch Pirate Weather data: " ++
            ("Pirate Weather API error: " ++ toString status ++ " " ++ statusText)), 1)
        else
          match body with
          | Except.error msg =>
              (Except.error ("Failed to fetch Pirate Weather data: " ++ msg), 1)
          | Except.ok data => (Except.ok (transformResponse data), 1)

end PWMain

namespace PWAlt

/-- Vendor schema `PirateWeatherCurrently` from the provider copy bundled in
`src/unnamed/part_000` (this copy has an extra `visibility` field). -/
structure PirateWeatherCurrently where
  time : ℤ
  summary : String
  icon : String
  temperature : ℚ
  apparentTemperature : ℚ
  humidity : ℚ
  pressure : ℚ
  windSpeed : ℚ
  windGust : Option ℚ
  windBearing : ℚ
  cloudCover : ℚ
  uvIndex : ℚ
  visibility : ℚ

/-- Vendor schema `PirateWeatherDaily` from the `part_000` provider copy. -/
structure PirateWeatherDaily where
  time : ℤ
  summary : String
  icon : String
  temperatureHigh : ℚ
  temperatureLow : ℚ
  temperatureMax : ℚ
  temperatureMin : ℚ
  apparentTemperatureHigh : ℚ
  apparentTemperatureLow : ℚ
  humidity : ℚ
  pressure : ℚ
  windSpeed : ℚ
  windGust : Option ℚ
  windBearing : ℚ
  cloudCover : ℚ
  uvIndex : ℚ

/-- Vendor schema `PirateWeatherResponse.daily` block (`part_000` copy). -/
structure PirateWeatherDailyBlock where
  summary : String
  icon : String
  data : List PirateWeatherDaily

/-- Vendor schema `PirateWeatherResponse` (`part_000` copy). -/
structure PirateWeatherResponse where
  latitude : ℚ
  longitude : ℚ
  timezone : String
  currently : PirateWeatherCurrently
  daily : PirateWeatherDailyBlock

/-- Normalized `DailyWeather` of the `part_000` provider copy. -/
structure DailyWeather where
  date : ℤ
  temperatureMax : ℚ
  temperatureMin : ℚ
  condition : String
  conditionUnified : Weather
  icon : String
  humidity : ℚ
  pressure : ℚ
  windSpeed : ℚ
  windGust : Option ℚ
  windBearing : ℚ
  cloudCover : ℚ
  uvIndex : ℚ

/-- Normalized current conditions as built by the `part_000` provider copy
(this copy keeps raw values and adds `uvIndex`). -/
structure CurrentWeather where
  temperature : ℚ
  feelsLike : ℚ
  condition : String
  conditionUnified : Weather
  icon : String
  humidity : ℚ
  pressure : ℚ
  windSpeed : ℚ
  windDirection : Option String
  uvIndex : ℚ

/-- Location block of the canonical `WeatherData` (`part_000` copy only). -/
structure WeatherLocation where
  latitude : ℚ
  longitude : ℚ
  timezone : String

/-- Canonical `WeatherData` as built by the `part_000` provider copy. -/
structure WeatherData where
  current : CurrentWeather
  daily : List DailyWeather
  location : WeatherLocation

/-- Source: `getDefaultConfig` (`part_000` lines 344–351). -/
def getDefaultConfig : WeatherProviderConfig :=
  { apiKey := some ""
    latitude := some 0
    longitude := some 0
    units := some "metric" }

/-- Source: `mapUnits` (`part_000` lines 384–391). -/
def mapUnits (units : String) : String :=
  (([("metric", "si"), ("imperial", "us")] : List (String × String)).lookup units).getD "si"

/-- Source: `formatCondition` (`part_000` lines 507–509). -/
def formatCondition (summary : String) : String :=
  if summary = "" then "Unknown" else summary

/-- Static icon-to-condition table of `mapIconToCondition`
(`part_000` lines 450–464). -/
def iconMap : List (String × Weather) :=
  [("clear-day", Weather.Clear),
   ("clear-night", Weather.Clear),
   ("rain", Weather.Rain),
   ("snow", Weather.Snow),
   ("sleet", Weather.Snow),
   ("wind", Weather.Wind),
   ("fog", Weather.Fog),
   ("cloudy", Weather.Clouds),
   ("partly-cloudy-day", Weather.Clouds),
   ("partly-cloudy-night", Weather.Clouds),
   ("hail", Weather.Snow),
   ("thunderstorm", Weather.Thunderstorm),
   ("tornado", Weather.Extreme)]

/-- Source: `mapIconToCondition` (`part_000` lines 449–467). -/
def mapIconToCondition (icon : String) : Weather :=
  (iconMap.lookup icon).getD Weather.All

/-- The 16 compass points of `bearingToDirection` (`part_000` lines 473–474). -/
def directions : List String :=
  ["N", "NNE", "NE", "ENE", "E", "ESE", "SE", "SSE",
   "S", "SSW", "SW", "WSW", "W", "WNW", "NW", "NNW"]

/-- Source: `bearingToDirection` (`part_000` lines 472–477), identical to
the `pirateweather-provider.ts` copy. -/
def bearingToDirection (bearing : ℚ) : Option String :=
  jsArrayGet directions (Int.tmod (round (bearing / (45/2))) 16)

/-- Base URL of the weather-underground icon set (`part_000` line 483). -/
def baseIconUrl : String :=
  "https://raw.githubusercontent.com/manifestinteractive/weather-underground-icons/master/dist/icons/white/png/64x64"

/-- Static icon-to-URL table of `getIconUrl` (`part_000` lines 485–499). -/
def iconMapping : List (String × String) :=
  [("clear-day", baseIconUrl ++ "/clear.png"),
   ("clear-night", baseIconUrl ++ "/nt_clear.png"),
   ("rain", baseIconUrl ++ "/rain.png"),
   ("snow", baseIconUrl ++ "/snow.png"),
   ("sleet", baseIconUrl ++ "/sleet.png"),
   ("wind", baseIconUrl ++ "/wind.png"),
   ("fog", baseIconUrl ++ "/fog.png"),
   ("cloudy", baseIconUrl ++ "/cloudy.png"),
   ("partly-cloudy-day", baseIconUrl ++ "/partlycloudy.png"),
   ("partly-cloudy-night", baseIconUrl ++ "/nt_partlycloudy.png"),
   ("hail", baseIconUrl ++ "/sleet.png"),
   ("thunderstorm", baseIconUrl ++ "/tstorms.png"),
   ("tornado", baseIconUrl ++ "/tornado.png")]

/-- Source: `getIconUrl` (`part_000` lines 482–502):
`iconMapping[icon] || baseIconUrl + '/cloudy.png'`. -/
def getIconUrl (icon : String) : String :=
  (iconMapping.lookup icon).getD (baseIconUrl ++ "/cloudy.png")

/-- Source: `transformDailyWeather` (`part_000` lines 428–444).  This copy
performs no rounding and passes `windGust` through unchanged. -/
def transformDailyWeather (day : PirateWeatherDaily) : DailyWeather :=
  { date := day.time * 1000
    temperatureMax := jsOrQ day.temperatureMax day.temperatureHigh
    temperatureMin := jsOrQ day.temperatureMin day.temperatureLow
    condition := formatCondition day.summary
    conditionUnified := mapIconToCondition day.icon
    icon := getIconUrl day.icon
    humidity := day.humidity * 100
    pressure := day.pressure
    windSpeed := day.windSpeed
    windGust := day.windGust
    windBearing := day.windBearing
    cloudCover := day.cloudCover * 100
    uvIndex := day.uvIndex }

/-- Source: `transformResponse` (`part_000` lines 393–426); the `_units`
argument is accepted and unused, as in the source. -/
def transformResponse (data : PirateWeatherResponse) (_units : String) : WeatherData :=
  { current :=
      { temperature := data.currently.temperature
        feelsLike := data.currently.apparentTemperature
        condition := formatCondition data.currently.summary
        conditionUnified := mapIconToCondition data.currently.icon
        icon := getIconUrl data.currently.icon
        humidity := data.currently.humidity * 100
        pressure := data.currently.pressure
        windSpeed := data.currently.windSpeed
        windDirection := bearingToDirection data.currently.windBearing
        uvIndex := data.currently.uvIndex }
    daily := (data.daily.data.take 7).map transformDailyWeather
    location :=
      { latitude := data.latitude
        longitude := data.longitude
        timezone := data.timezone } }

/-- Source: `fetchWeatherAsync` (`part_000` lines 353–382); identical
control flow to the `pirateweather-provider.ts` copy except that
`transformResponse` also receives `config.units || 'metric'`. -/
def fetchWeatherAsync (config : WeatherProviderConfig)
    (net : FetchOutcome PirateWeatherResponse) :
    Except String WeatherData × ℕ :=
  if jsFalsyStr config.apiKey then
    (Except.error "Pirate Weather API key is required", 0)
  else if jsFalsyNum config.latitude || jsFalsyNum config.longitude then
    (Except.error "Latitude and longitude are required", 0)
  else
    match net with
    | FetchOutcome.networkError msg =>
        (Except.error ("Failed to fetch Pirate Weather data: " ++ msg), 1)
    | FetchOutcome.response status statusText body =>
        if !responseOk status then
          (Except.error ("Failed to fetch Pirate Weather data: " ++
            ("Pirate Weather API error: " ++ toString status ++ " " ++ statusText)), 1)
        else
          match body with
          | Except.error msg =>
              (Except.error ("Failed to fetch Pirate Weather data: " ++ msg), 1)
          | Except.ok data =>
              (Except.ok (transformResponse data (jsOrStr config.units "metric")), 1)

end PWAlt

namespace Card

/-- Modelled from the spec: `WallClockConfig` is declared in `./types`,
which is not in the repository snapshot.  Only the fields read by
`initConnectCallbackAsync` are modelled: `logLevel` (a log-level string,
defaulted with `|| 'info'`) and `showWeather` (an optional boolean whose
falsiness gates the suppression broadcast). -/
structure WallClockConfig where
  logLevel : Option String
  showWeather : Option Bool
deriving DecidableEq

/-- Observable steps of `initConnectCallbackAsync`
(`src/unnamed/part_000` lines 159–192), in the order the orchestrator
performs them.  `ready i` records the resolution of the `i`-th
sub-component's one-shot `controller.ready` promise (weather, background
image, clock, sensors, transportation, action bar). -/
inductive InitEvent where
  | ready (i : Fin 6)
  | reapplyTransportation
  | configureLogger (level : String)
  | loadTranslations
  | logTranslationsLoaded
  | logTranslationError
  | publishWeather (w : Weather)
deriving DecidableEq

/-- Classifier: readiness-resolution events. -/
def isReadyEvent : InitEvent → Bool
  | InitEvent.ready _ => true
  | _ => false

/-- Classifier: the three post-barrier follow-up effects named by the spec
(logging configuration, translation-loading attempt, suppression
broadcast). -/
def isFollowUpEvent : InitEvent → Bool
  | InitEvent.configureLogger _ => true
  | InitEvent.loadTranslations => true
  | InitEvent.publishWeather _ => true
  | _ => false

/-- Classifier: weather-suppression broadcasts. -/
def isPublishEvent : InitEvent → Bool
  | InitEvent.publishWeather _ => true
  | _ => false

/-- The continuation of `initConnectCallbackAsync` after the `Promise.all`
barrier (`src/unnamed/part_000` lines 169–191), in program order:
re-apply the transportation configuration, configure the logger with
`this.config.logLevel || 'info'`, attempt `loadTranslationsAsync()` —
`translationsOk` tells whether it resolves or throws; a throw is caught
and logged (`logTranslationError`) and the method continues — and, when
`this.config.showWeather` is falsy, publish a single
`WeatherMessage(Weather.All)` on the `Messenger` channel. -/
def initFollowUps (cfg : WallClockConfig) (translationsOk : Bool) : List InitEvent :=
  [InitEvent.reapplyTransportation,
   InitEvent.configureLogger (jsOrStr cfg.logLevel "info"),
   InitEvent.loadTranslations]
    ++ (if translationsOk then [InitEvent.logTranslationsLoaded]
        else [InitEvent.logTranslationError])
    ++ (if jsTruthyBool cfg.showWeather then []
        else [InitEvent.publishWeather Weather.All])

/-- Source: `initConnectCallbackAsync` (`src/unnamed/part_000` lines
159–192), as the trace of its observable steps.  `readyOrder` is the order
in which the six one-shot `controller.ready` promises resolve; the
`Promise.all` barrier lets the method continue only once all six have
resolved, so every readiness event precedes the whole continuation
`initFollowUps`. -/
def initConnectCallbackAsync (cfg : WallClockConfig) (readyOrder : List (Fin 6))
    (translationsOk : Bool) : List InitEvent :=
  readyOrder.map InitEvent.ready ++ initFollowUps cfg translationsOk

end Card

/-! ### Helper lemmas -/

theorem lookup_eq_some_of_mem {α : Type} (s : String) (w : α) :
    ∀ l : List (String × α), (l.map Prod.fst).Nodup → (s, w) ∈ l → l.lookup s = some w := by
  intro l
  induction l with
  | nil => intro _ h; cases h
  | cons hd tl ih =>
    intro hnd hmem
    obtain ⟨k, b⟩ := hd
    rcases List.mem_cons.mp hmem with heq | htl
    · obtain ⟨rfl, rfl⟩ := Prod.mk.injEq .. ▸ heq
      simp [List.lookup]
    · have hk : s ≠ k := by
        rintro rfl
        have hmemk : s ∈ tl.map Prod.fst := List.mem_map.mpr ⟨(s, w), htl, rfl⟩
        simp only [List.map_cons, List.nodup_cons] at hnd
        exact hnd.1 hmemk
      have hbeq : (s == k) = false := beq_eq_false_iff_ne.mpr hk
      simp only [List.map_cons, List.nodup_cons] at hnd
      simp [List.lookup, hbeq, ih hnd.2 htl]

theorem lookup_eq_none_of_not_mem {α : Type} (s : String) :
    ∀ l : List (String × α), (∀ w, (s, w) ∉ l) → l.lookup s = none := by
  intro l
  induction l with
  | nil => intro _; rfl
  | cons hd tl ih =>
    intro h
    obtain ⟨k, b⟩ := hd
    have hk : s ≠ k := by
      rintro rfl
      exact h b (List.mem_cons_self _ _)
    have hbeq : (s == k) = false := beq_eq_false_iff_ne.mpr hk
    have htl : ∀ w, (s, w) ∉ tl := fun w hw => h w (List.mem_cons_of_mem _ hw)
    simp [List.lookup, hbeq, ih htl]

/-! ### C1 -/

/-- C1: for every `WeatherProviderConfig` in which `apiKey` is empty or
absent, or `latitude` is zero or absent, or `longitude` is zero or absent,
`fetchWeatherAsync` (both provider copies) rejects with one of the two
descriptive validation messages and issues no outbound fetch (the request
counter stays `0`), whatever the network would have answered. -/
theorem fetchWeatherAsync_rejects_invalid_config
    (cfg : WeatherProviderConfig)
    (net : FetchOutcome PWMain.PirateWeatherResponse)
    (net' : FetchOutcome PWAlt.PirateWeatherResponse)
    (h : jsFalsyStr cfg.apiKey = true ∨ jsFalsyNum cfg.latitude = true ∨
         jsFalsyNum cfg.longitude = true) :
    (∃ msg, PWMain.fetchWeatherAsync cfg net = (Except.error msg, 0) ∧
      (msg = "Pirate Weather API key is required" ∨
       msg = "Latitude and longitude are required")) ∧
    (∃ msg, PWAlt.fetchWeatherAsync cfg net' = (Except.error msg, 0) ∧
      (msg = "Pirate Weather API key is required" ∨
       msg = "Latitude and longitude are required")) := by
  have hcoord : jsFalsyStr cfg.apiKey = false →
      (jsFalsyNum cfg.latitude || jsFalsyNum cfg.longitude) = true := by
    intro hk
    rcases h with h | h | h
    · rw [hk] at h; cases h
    · simp [h]
    · simp [h]
  constructor
  · by_cases hk : jsFalsyStr cfg.apiKey = true
    · exact ⟨_, by simp [PWMain.fetchWeatherAsync, hk], Or.inl rfl⟩
    · have hk' : jsFalsyStr cfg.apiKey = false := by
        simpa using hk
      exact ⟨_, by simp [PWMain.fetchWeatherAsync, hk', hcoord hk'], Or.inr rfl⟩
  · by_cases hk : jsFalsyStr cfg.apiKey = true
    · exact ⟨_, by simp [PWAlt.fetchWeatherAsync, hk], Or.inl rfl⟩
    · have hk' : jsFalsyStr cfg.apiKey = false := by
        simpa using hk
      exact ⟨_, by simp [PWAlt.fetchWeatherAsync, hk', hcoord hk'], Or.inr rfl⟩

/-- Witness for C1 at the concrete config with a present key and missing
coordinates, against a network that would have answered. -/
theorem fetchWeatherAsync_rejects_invalid_config_witness :
    ∃ msg, PWMain.fetchWeatherAsync
        { apiKey := some "k", latitude := none, longitude := some 14, units := none }
        (FetchOutcome.networkError "boom") = (Except.error msg, 0) ∧
      (msg = "Pirate Weather API key is required" ∨
       msg = "Latitude and longitude are required") :=
  (fetchWeatherAsync_rejects_invalid_config
    { apiKey := some "k", latitude := none, longitude := some 14, units := none }
    (FetchOutcome.networkError "boom") (FetchOutcome.networkError "boom")
    (Or.inr (Or.inl (by simp [jsFalsyNum])))).1

/-! ### C10 -/

/-- C10: applying `fetchWeatherAsync` to the provider's own
`getDefaultConfig()` always rejects on the empty default `apiKey` with no
outbound request, for both provider copies and any network behaviour. -/
theorem fetchWeatherAsync_default_config_rejects
    (net : FetchOutcome PWMain.PirateWeatherResponse)
    (net' : FetchOutcome PWAlt.PirateWeatherResponse) :
    PWMain.fetchWeatherAsync PWMain.getDefaultConfig net =
      (Except.error "Pirate Weather API key is required", 0) ∧
    PWAlt.fetchWeatherAsync PWAlt.getDefaultConfig net' =
      (Except.error "Pirate Weather API key is required", 0) := by
  constructor
  · simp [PWMain.fetchWeatherAsync, PWMain.getDefaultConfig, jsFalsyStr]
  · simp [PWAlt.fetchWeatherAsync, PWAlt.getDefaultConfig, jsFalsyStr]

/-! ### C4 -/

/-- C4: once the configuration passes validation, a non-2xx response makes
`fetchWeatherAsync` fail with a message embedding the status code and the
status text (behind the distinguishing `Pirate Weather API error:` marker),
while a transport rejection or a JSON-parse failure fails with the stable
`Failed to fetch Pirate Weather data: ` head followed by the original
error message, for both provider copies. -/
theorem fetchWeatherAsync_error_modes
    (cfg : WeatherProviderConfig)
    (hkey : jsFalsyStr cfg.apiKey = false)
    (hlat : jsFalsyNum cfg.latitude = false)
    (hlon : jsFalsyNum cfg.longitude = false) :
    (∀ status statusText body, responseOk status = false →
      PWMain.fetchWeatherAsync cfg (FetchOutcome.response status statusText body) =
        (Except.error ("Failed to fetch Pirate Weather data: " ++
          ("Pirate Weather API error: " ++ toString status ++ " " ++ statusText)), 1)) ∧
    (∀ msg, PWMain.fetchWeatherAsync cfg (FetchOutcome.networkError msg) =
      (Except.error ("Failed to fetch Pirate Weather data: " ++ msg), 1)) ∧
    (∀ status statusText msg, responseOk status = true →
      PWMain.fetchWeatherAsync cfg
          (FetchOutcome.response status statusText (Except.error msg)) =
        (Except.error ("Failed to fetch Pirate Weather data: " ++ msg), 1)) ∧
    (∀ status statusText body, responseOk status = false →
      PWAlt.fetchWeatherAsync cfg (FetchOutcome.response status statusText body) =
        (Except.error ("Failed to fetch Pirate Weather data: " ++
          ("Pirate Weather API error: " ++ toString status ++ " " ++ statusText)), 1)) ∧
    (∀ msg, PWAlt.fetchWeatherAsync cfg (FetchOutcome.networkError msg) =
      (Except.error ("Failed to fetch Pirate Weather data: " ++ msg), 1)) ∧
    (∀ status statusText msg, responseOk status = true →
      PWAlt.fetchWeatherAsync cfg
          (FetchOutcome.response status statusText (Except.error msg)) =
        (Except.error ("Failed to fetch Pirate Weather data: " ++ msg), 1)) := by
  refine ⟨?_, ?_, ?_, ?_, ?_, ?_⟩
  · intro status statusText body hstat
    simp [PWMain.fetchWeatherAsync, hkey, hlat, hlon, hstat]
  · intro msg
    simp [PWMain.fetchWeatherAsync, hkey, hlat, hlon]
  · intro status statusText msg hstat
    simp [PWMain.fetchWeatherAsync, hkey, hlat, hlon, hstat]
  · intro status statusText body hstat
    simp [PWAlt.fetchWeatherAsync, hkey, hlat, hlon, hstat]
  · intro msg
    simp [PWAlt.fetchWeatherAsync, hkey, hlat, hlon]
  · intro status statusText msg hstat
    simp [PWAlt.fetchWeatherAsync, hkey, hlat, hlon, hstat]

/-- Valid sample configuration used by the error-mode witnesses. -/
def validCfg : WeatherProviderConfig :=
  { apiKey := some "k", latitude := some 50, longitude := some 14, units := some "metric" }

/-- Witness for C4: concrete 404 response, transport rejection and parse
failure under the valid sample configuration. -/
theorem fetchWeatherAsync_error_modes_witness :
    PWMain.fetchWeatherAsync validCfg
        (FetchOutcome.response 404 "Not Found" (Except.error "ignored")) =
      (Except.error ("Failed to fetch Pirate Weather data: " ++
        ("Pirate Weather API error: " ++ toString 404 ++ " " ++ "Not Found")), 1) ∧
    PWMain.fetchWeatherAsync validCfg (FetchOutcome.networkError "socket hang up") =
      (Except.error ("Failed to fetch Pirate Weather data: " ++ "socket hang up"), 1) ∧
    PWAlt.fetchWeatherAsync validCfg
        (FetchOutcome.response 200 "OK" (Except.error "bad json")) =
      (Except.error ("Failed to fetch Pirate Weather data: " ++ "bad json"), 1) := by
  have h := fetchWeatherAsync_error_modes validCfg
    (by simp [validCfg, jsFalsyStr])
    (by simp [validCfg, jsFalsyNum])
    (by simp [validCfg, jsFalsyNum])
  exact ⟨h.1 404 "Not Found" (Except.error "ignored") (by decide),
    h.2.1 "socket hang up",
    h.2.2.2.2.2 200 "OK" "bad json" (by decide)⟩

/-! ### C7 -/

/-- C7: `mapIconToCondition` is total: every code present in the static
table maps to that table's `Weather` value, every code absent from the
table maps to the catch-all `Weather.All`, and `getIconUrl` resolves
unmapped codes to the designated fallback icon — for both provider
copies, without any failure path. -/
theorem mapIconToCondition_table_or_fallback (s : String) :
    (∀ w, (s, w) ∈ PWMain.iconMap → PWMain.mapIconToCondition s = w) ∧
    ((∀ w, (s, w) ∉ PWMain.iconMap) → PWMain.mapIconToCondition s = Weather.All) ∧
    (∀ w, (s, w) ∈ PWAlt.iconMap → PWAlt.mapIconToCondition s = w) ∧
    ((∀ w, (s, w) ∉ PWAlt.iconMap) → PWAlt.mapIconToCondition s = Weather.All) ∧
    ((∀ u, (s, u) ∉ PWMain.iconMapping) →
      PWMain.getIconUrl s = "https://openweathermap.org/img/wn/" ++ "01d" ++ "@2x.png") ∧
    ((∀ u, (s, u) ∉ PWAlt.iconMapping) →
      PWAlt.getIconUrl s = PWAlt.baseIconUrl ++ "/cloudy.png") := by
  refine ⟨?_, ?_, ?_, ?_, ?_, ?_⟩
  · intro w hmem
    have h := lookup_eq_some_of_mem s w PWMain.iconMap (by decide) hmem
    simp [PWMain.mapIconToCondition, h]
  · intro hnot
    have h := lookup_eq_none_of_not_mem s PWMain.iconMap hnot
    simp [PWMain.mapIconToCondition, h]
  · intro w hmem
    have h := lookup_eq_some_of_mem s w PWAlt.iconMap (by decide) hmem
    simp [PWAlt.mapIconToCondition, h]
  · intro hnot
    have h := lookup_eq_none_of_not_mem s PWAlt.iconMap hnot
    simp [PWAlt.mapIconToCondition, h]
  · intro hnot
    have h := lookup_eq_none_of_not_mem s PWMain.iconMapping hnot
    simp [PWMain.getIconUrl, h]
  · intro hnot
    have h := lookup_eq_none_of_not_mem s PWAlt.iconMapping hnot
    simp [PWAlt.getIconUrl, h]

/-- Witness for C7: a mapped code in each table and an unmapped code in
each, with the fallbacks evaluated. -/
theorem mapIconToCondition_table_or_fallback_witness :
    PWMain.mapIconToCondition "rain" = Weather.Rain ∧
    PWMain.mapIconToCondition "meteor-shower" = Weather.All ∧
    PWAlt.mapIconToCondition "tornado" = Weather.Extreme ∧
    PWAlt.mapIconToCondition "meteor-shower" = Weather.All ∧
    PWMain.getIconUrl "meteor-shower" =
      "https://openweathermap.org/img/wn/" ++ "01d" ++ "@2x.png" ∧
    PWAlt.getIconUrl "meteor-shower" = PWAlt.baseIconUrl ++ "/cloudy.png" := by
  refine ⟨?_, ?_, ?_, ?_, ?_, ?_⟩
  · exact (mapIconToCondition_table_or_fallback "rain").1 Weather.Rain
      (by simp [PWMain.iconMap])
  · exact (mapIconToCondition_table_or_fallback "meteor-shower").2.1
      (by intro w; simp [PWMain.iconMap])
  · exact (mapIconToCondition_table_or_fallback "tornado").2.2.1 Weather.Extreme
      (by simp [PWAlt.iconMap])
  · exact (mapIconToCondition_table_or_fallback "meteor-shower").2.2.2.1
      (by intro w; simp [PWAlt.iconMap])
  · exact (mapIconToCondition_table_or_fallback "meteor-shower").2.2.2.2.1
      (by intro u; simp [PWMain.iconMapping])
  · exact (mapIconToCondition_table_or_fallback "meteor-shower").2.2.2.2.2
      (by intro u; simp [PWAlt.iconMapping, PWAlt.baseIconUrl])

/-! ### C6 -/

/-- C6: the normalized `daily` series is the first at-most-7 vendor daily
entries in their original order, each normalized by `transformDailyWeather`;
a 10-entry vendor series yields exactly 7 normalized entries.  Both
provider copies. -/
theorem transformResponse_daily_first7
    (r : PWMain.PirateWeatherResponse) (s : PWAlt.PirateWeatherResponse)
    (u : String) (i : ℕ) :
    (PWMain.transformResponse r).daily.length = min 7 r.daily.data.length ∧
    (i < 7 → ((PWMain.transformResponse r).daily)[i]? =
      (r.daily.data[i]?).map PWMain.transformDailyWeather) ∧
    (r.daily.data.length = 10 → (PWMain.transformResponse r).daily.length = 7) ∧
    (PWAlt.transformResponse s u).daily.length = min 7 s.daily.data.length ∧
    (i < 7 → ((PWAlt.transformResponse s u).daily)[i]? =
      (s.daily.data[i]?).map PWAlt.transformDailyWeather) ∧
    (s.daily.data.length = 10 → (PWAlt.transformResponse s u).daily.length = 7) := by
  refine ⟨?_, ?_, ?_, ?_, ?_, ?_⟩
  · simp [PWMain.transformResponse]
  · intro hi
    simp [PWMain.transformResponse, List.getElem?_take, hi]
  · intro hlen
    simp [PWMain.transformResponse, hlen]
  · simp [PWAlt.transformResponse]
  · intro hi
    simp [PWAlt.transformResponse, List.getElem?_take, hi]
  · intro hlen
    simp [PWAlt.transformResponse, hlen]

/-- Sample vendor daily entry for the `pirateweather-provider.ts` copy. -/
def sampleDailyMain : PWMain.PirateWeatherDaily :=
  { time := 1700000000, summary := "Rain", icon := "rain",
    temperatureHigh := 10, temperatureLow := 2,
    temperatureMax := 11, temperatureMin := 1,
    apparentTemperatureHigh := 9, apparentTemperatureLow := 1,
    humidity := 1/2, pressure := 1013, windSpeed := 5, windGust := none,
    windBearing := 90, cloudCover := 1/4, uvIndex := 3 }

/-- Sample vendor response with a 10-entry daily series (main copy). -/
def sampleRespMain : PWMain.PirateWeatherResponse :=
  { latitude := 50, longitude := 14, timezone := "Europe/Prague",
    currently :=
      { time := 1700000000, summary := "Rain", icon := "rain",
        temperature := 10, apparentTemperature := 9, humidity := 1/2,
        pressure := 1013, windSpeed := 5, windGust := none,
        windBearing := 90, cloudCover := 1/4, uvIndex := 3 },
    daily := { summary := "Rain", icon := "rain",
               data := List.replicate 10 sampleDailyMain } }

/-- Sample vendor daily entry for the `part_000` provider copy. -/
def sampleDailyAlt : PWAlt.PirateWeatherDaily :=
  { time := 1700000000, summary := "Rain", icon := "rain",
    temperatureHigh := 10, temperatureLow := 2,
    temperatureMax := 11, temperatureMin := 1,
    apparentTemperatureHigh := 9, apparentTemperatureLow := 1,
    humidity := 1/2, pressure := 1013, windSpeed := 5, windGust := none,
    windBearing := 90, cloudCover := 1/4, uvIndex := 3 }

/-- Sample vendor response with a 10-entry daily series (`part_000` copy). -/
def sampleRespAlt : PWAlt.PirateWeatherResponse :=
  { latitude := 50, longitude := 14, timezone := "Europe/Prague",
    currently :=
      { time := 1700000000, summary := "Rain", icon := "rain",
        temperature := 10, apparentTemperature := 9, humidity := 1/2,
        pressure := 1013, windSpeed := 5, windGust := none,
        windBearing := 90, cloudCover := 1/4, uvIndex := 3, visibility := 10 },
    daily := { summary := "Rain", icon := "rain",
               data := List.replicate 10 sampleDailyAlt } }

/-- Witness for C6: the 10-entry sample series yields exactly 7 normalized
entries and index 2 is the normalization of vendor index 2, in both copies. -/
theorem transformResponse_daily_first7_witness :
    (PWMain.transformResponse sampleRespMain).daily.length = 7 ∧
    ((PWMain.transformResponse sampleRespMain).daily)[2]? =
      ((sampleRespMain.daily.data)[2]?).map PWMain.transformDailyWeather ∧
    (PWAlt.transformResponse sampleRespAlt "metric").daily.length = 7 ∧
    ((PWAlt.transformResponse sampleRespAlt "metric").daily)[2]? =
      ((sampleRespAlt.daily.data)[2]?).map PWAlt.transformDailyWeather := by
  have h := transformResponse_daily_first7 sampleRespMain sampleRespAlt "metric" 2
  exact ⟨h.2.2.1 (by simp [sampleRespMain]),
    h.2.1 (by decide),
    h.2.2.2.2.2 (by simp [sampleRespAlt]),
    h.2.2.2.2.1 (by decide)⟩

/-! ### C3 -/

/-- Bounds for the rounded percentage of a unit-interval ratio. -/
theorem round_unit_ratio_bounds (h : ℚ) (h0 : 0 ≤ h) (h1 : h ≤ 1) :
    0 ≤ round (h * 100) ∧ round (h * 100) ≤ 100 := by
  constructor
  · rw [round_eq]
    refine Int.floor_nonneg.mpr ?_
    nlinarith
  · rw [round_eq]
    have hlt : ⌊h * 100 + 1/2⌋ < (101 : ℤ) := by
      refine Int.floor_lt.mpr ?_
      push_cast
      nlinarith
    omega

/-- Vendor daily entry whose humidity is half a percent; exposes the
missing rounding in the `part_000` provider copy. -/
def altDailyTiny : PWAlt.PirateWeatherDaily :=
  { time := 0, summary := "", icon := "",
    temperatureHigh := 0, temperatureLow := 0,
    temperatureMax := 0, temperatureMin := 0,
    apparentTemperatureHigh := 0, apparentTemperatureLow := 0,
    humidity := 1/200, pressure := 0, windSpeed := 0, windGust := none,
    windBearing := 0, cloudCover := 0, uvIndex := 0 }

/-- C3 counterexample: the provider copy in `src/unnamed/part_000` applies
no rounding, so the in-range vendor humidity `1/200` normalizes to `1/2`,
which is not an integer — the claim's "0–100 integer" clause fails on that
adapter. -/
theorem humidity_integer_counterexample :
    (0 ≤ altDailyTiny.humidity ∧ altDailyTiny.humidity ≤ 1) ∧
    (PWAlt.transformDailyWeather altDailyTiny).humidity = 1/2 ∧
    ¬ ∃ n : ℤ, (PWAlt.transformDailyWeather altDailyTiny).humidity = (n : ℚ) := by
  refine ⟨⟨by norm_num [altDailyTiny], by norm_num [altDailyTiny]⟩, ?_, ?_⟩
  · norm_num [PWAlt.transformDailyWeather, altDailyTiny]
  · rintro ⟨n, hn⟩
    have h2 : ((1 : ℚ)/2) = (n : ℚ) := by
      rw [← hn]
      norm_num [PWAlt.transformDailyWeather, altDailyTiny]
    have h3 : (2 : ℚ) * (n : ℚ) = 1 := by rw [← h2]; norm_num
    have h4 : (2 * n : ℤ) = 1 := by exact_mod_cast h3
    omega

/-- C3 (amended): for unit-interval humidity and cloud-cover inputs the
normalized output is in `[0, 100]` and equals the input times 100 rounded
per the adapter's own rule — `Math.round` in the
`pirateweather-provider.ts` copy, where the output is therefore a 0–100
integer, and the identity (no rounding) in the `part_000` copy, where the
output is the exact, possibly fractional, product. -/
theorem humidity_cloudcover_normalization
    (d : PWMain.PirateWeatherDaily) (r : PWAlt.PirateWeatherResponse) (u : String)
    (hd0 : 0 ≤ d.humidity) (hd1 : d.humidity ≤ 1)
    (hc0 : 0 ≤ d.cloudCover) (hc1 : d.cloudCover ≤ 1)
    (hr0 : 0 ≤ r.currently.humidity) (hr1 : r.currently.humidity ≤ 1) :
    ((PWMain.transformDailyWeather d).humidity = (round (d.humidity * 100) : ℚ) ∧
     ∃ n : ℤ, (PWMain.transformDailyWeather d).humidity = (n : ℚ) ∧ 0 ≤ n ∧ n ≤ 100) ∧
    ((PWMain.transformDailyWeather d).cloudCover = (round (d.cloudCover * 100) : ℚ) ∧
     ∃ n : ℤ, (PWMain.transformDailyWeather d).cloudCover = (n : ℚ) ∧ 0 ≤ n ∧ n ≤ 100) ∧
    ((PWAlt.transformResponse r u).current.humidity = r.currently.humidity * 100 ∧
     0 ≤ (PWAlt.transformResponse r u).current.humidity ∧
     (PWAlt.transformResponse r u).current.humidity ≤ 100) := by
  obtain ⟨hh0, hh1⟩ := round_unit_ratio_bounds d.humidity hd0 hd1
  obtain ⟨hcc0, hcc1⟩ := round_unit_ratio_bounds d.cloudCover hc0 hc1
  refine ⟨⟨rfl, round (d.humidity * 100), rfl, hh0, hh1⟩,
    ⟨rfl, round (d.cloudCover * 100), rfl, hcc0, hcc1⟩, rfl, ?_, ?_⟩
  · show (0 : ℚ) ≤ r.currently.humidity * 100
    nlinarith
  · show r.currently.humidity * 100 ≤ 100
    nlinarith

/-- Witness for C3's amended theorem at the sample inputs. -/
theorem humidity_cloudcover_normalization_witness :
    (∃ n : ℤ, (PWMain.transformDailyWeather sampleDailyMain).humidity = (n : ℚ) ∧
      0 ≤ n ∧ n ≤ 100) ∧
    (PWAlt.transformResponse sampleRespAlt "metric").current.humidity =
      sampleRespAlt.currently.humidity * 100 ∧
    (PWAlt.transformResponse sampleRespAlt "metric").current.humidity ≤ 100 := by
  have h := humidity_cloudcover_normalization sampleDailyMain sampleRespAlt "metric"
    (by norm_num [sampleDailyMain]) (by norm_num [sampleDailyMain])
    (by norm_num [sampleDailyMain]) (by norm_num [sampleDailyMain])
    (by norm_num [sampleRespAlt]) (by norm_num [sampleRespAlt])
  exact ⟨h.1.2, h.2.2.1, h.2.2.2.2⟩

/-! ### C5 -/

/-- C5: for every bearing in `[0, 360)` degrees, `bearingToDirection`
returns one of the 16 compass points, namely the one whose 22.5°-spaced
sector center (up to a 360° wrap, the integer `m` below) lies within half
a sector width (11.25°) of the bearing — nearest-neighbor rounding; both
provider copies agree, and `0° ↦ N`, `359° ↦ N` (wrapping `360° → 0°`),
`180° ↦ S`, `22.5° ↦ NNE`. -/
theorem bearingToDirection_nearest_sector :
    (∀ b : ℚ, 0 ≤ b → b < 360 →
      ∃ k : ℕ, k < 16 ∧ PWMain.bearingToDirection b = PWMain.directions[k]? ∧
        ∃ m : ℤ, |b - ((45/2) * (k : ℚ) + 360 * (m : ℚ))| ≤ 45/4) ∧
    (∀ b : ℚ, PWAlt.bearingToDirection b = PWMain.bearingToDirection b) ∧
    PWMain.bearingToDirection 0 = some "N" ∧
    PWMain.bearingToDirection 359 = some "N" ∧
    PWMain.bearingToDirection 180 = some "S" ∧
    PWMain.bearingToDirection (45/2) = some "NNE" := by
  refine ⟨?_, fun b => rfl, ?_, ?_, ?_, ?_⟩
  · intro b hb0 hb360
    have hdpos : (0 : ℚ) < 45/2 := by norm_num
    have hx0 : 0 ≤ b / (45/2) := div_nonneg hb0 (le_of_lt hdpos)
    have hx16 : b / (45/2) < 16 := by
      rw [div_lt_iff₀ hdpos]; linarith
    have hr0 : 0 ≤ round (b / (45/2)) := by
      rw [round_eq]
      exact Int.floor_nonneg.mpr (by linarith)
    have hr16 : round (b / (45/2)) ≤ 16 := by
      rw [round_eq]
      have hlt : ⌊b / (45/2) + 1/2⌋ < (17 : ℤ) := by
        refine Int.floor_lt.mpr ?_
        push_cast
        linarith
      omega
    have habs : |b / (45/2) - (round (b / (45/2)) : ℚ)| ≤ 1/2 := abs_sub_round _
    have hdist : |b - (45/2) * ((round (b / (45/2)) : ℤ) : ℚ)| ≤ 45/4 := by
      have heq : b - (45/2) * ((round (b / (45/2)) : ℤ) : ℚ)
          = (45/2) * (b / (45/2) - ((round (b / (45/2)) : ℤ) : ℚ)) := by
        field_simp
        ring
      rw [heq, abs_mul, abs_of_pos hdpos]
      nlinarith [habs, abs_nonneg (b / (45/2) - ((round (b / (45/2)) : ℤ) : ℚ))]
    obtain ⟨mn, hmn⟩ : ∃ mn : ℕ, round (b / (45/2)) = (mn : ℤ) :=
      ⟨(round (b / (45/2))).toNat, (Int.toNat_of_nonneg hr0).symm⟩
    have hmn16 : mn ≤ 16 := by
      have h1 : (mn : ℤ) ≤ 16 := by rw [← hmn]; exact hr16
      exact_mod_cast h1
    rw [hmn] at hdist
    push_cast at hdist
    refine ⟨mn % 16, Nat.mod_lt _ (by norm_num), ?_, ?_⟩
    · show jsArrayGet PWMain.directions (Int.tmod (round (b / (45/2))) 16) = _
      rw [hmn]
      have htm : Int.tmod ((mn : ℤ)) (16 : ℤ) = ((mn % 16 : ℕ) : ℤ) := rfl
      rw [htm]
      have hpos : (0 : ℤ) ≤ ((mn % 16 : ℕ) : ℤ) := Int.natCast_nonneg _
      simp only [jsArrayGet]
      rw [if_pos hpos, Int.toNat_natCast]
    · rcases Nat.lt_or_ge mn 16 with hlt | hge
      · refine ⟨0, ?_⟩
        rw [Nat.mod_eq_of_lt hlt]
        push_cast
        simpa using hdist
      · have h16 : mn = 16 := le_antisymm hmn16 hge
        subst h16
        refine ⟨1, ?_⟩
        have hx : b - ((45/2) * ((16 % 16 : ℕ) : ℚ) + 360 * ((1 : ℤ) : ℚ))
            = b - 45/2 * ((16 : ℕ) : ℚ) := by
          norm_num
        rw [hx]
        exact hdist
  · have h0 : round ((0 : ℚ) / (45/2)) = 0 := by norm_num [round_eq]
    show jsArrayGet PWMain.directions (Int.tmod (round ((0 : ℚ) / (45/2))) 16) = some "N"
    rw [h0]; decide
  · have h359 : round ((359 : ℚ) / (45/2)) = 16 := by norm_num [round_eq]
    show jsArrayGet PWMain.directions (Int.tmod (round ((359 : ℚ) / (45/2))) 16) = some "N"
    rw [h359]; decide
  · have h180 : round ((180 : ℚ) / (45/2)) = 8 := by norm_num [round_eq]
    show jsArrayGet PWMain.directions (Int.tmod (round ((180 : ℚ) / (45/2))) 16) = some "S"
    rw [h180]; decide
  · have h225 : round ((45/2 : ℚ) / (45/2)) = 1 := by norm_num [round_eq]
    show jsArrayGet PWMain.directions (Int.tmod (round ((45/2 : ℚ) / (45/2))) 16) = some "NNE"
    rw [h225]; decide

/-- Witness for C5 at the concrete bearing 100°. -/
theorem bearingToDirection_nearest_sector_witness :
    ∃ k : ℕ, k < 16 ∧ PWMain.bearingToDirection 100 = PWMain.directions[k]? ∧
      ∃ m : ℤ, |(100 : ℚ) - ((45/2) * (k : ℚ) + 360 * (m : ℚ))| ≤ 45/4 :=
  bearingToDirection_nearest_sector.1 100 (by norm_num) (by norm_num)

/-! ### C2 -/

/-- Every event of the post-barrier continuation is a non-readiness event. -/
theorem initFollowUps_not_ready (cfg : Card.WallClockConfig) (ok : Bool) :
    ∀ e ∈ Card.initFollowUps cfg ok, Card.isReadyEvent e = false := by
  intro e he
  have hcases : e = Card.InitEvent.reapplyTransportation ∨
      e = Card.InitEvent.configureLogger (jsOrStr cfg.logLevel "info") ∨
      e = Card.InitEvent.loadTranslations ∨
      e = Card.InitEvent.logTranslationsLoaded ∨
      e = Card.InitEvent.logTranslationError ∨
      e = Card.InitEvent.publishWeather Weather.All := by
    rcases ok <;> rcases hsw : jsTruthyBool cfg.showWeather <;>
      simp [Card.initFollowUps, hsw] at he <;> tauto
  rcases hcases with rfl | rfl | rfl | rfl | rfl | rfl <;> rfl

/-- C2: in every run of the orchestrator trace, each of the three
post-barrier follow-ups (logging configuration, the translation-loading
attempt, the suppression broadcast) sits strictly after every one of the
six readiness resolutions; the logging-configuration and
translation-attempt events are always present, and a translation failure
only adds a caught-and-logged error event — the trace still carries the
logging configuration and, whenever the weather feature is off, the
suppression broadcast. -/
theorem initConnectCallbackAsync_barrier
    (cfg : Card.WallClockConfig) (readyOrder : List (Fin 6)) (translationsOk : Bool)
    (hperm : readyOrder.Perm (List.finRange 6)) :
    (∀ i : Fin 6, Card.InitEvent.ready i ∈
      Card.initConnectCallbackAsync cfg readyOrder translationsOk) ∧
    (∀ (p q : ℕ) (ev : Card.InitEvent) (i : Fin 6),
      (Card.initConnectCallbackAsync cfg readyOrder translationsOk)[p]? =
        some (Card.InitEvent.ready i) →
      (Card.initConnectCallbackAsync cfg readyOrder translationsOk)[q]? = some ev →
      Card.isFollowUpEvent ev = true → p < q) ∧
    Card.InitEvent.configureLogger (jsOrStr cfg.logLevel "info") ∈
      Card.initConnectCallbackAsync cfg readyOrder translationsOk ∧
    Card.InitEvent.loadTranslations ∈
      Card.initConnectCallbackAsync cfg readyOrder translationsOk ∧
    (translationsOk = false → Card.InitEvent.logTranslationError ∈
      Card.initConnectCallbackAsync cfg readyOrder translationsOk) ∧
    (jsTruthyBool cfg.showWeather = false →
      Card.InitEvent.publishWeather Weather.All ∈
        Card.initConnectCallbackAsync cfg readyOrder translationsOk) := by
  have hlen : readyOrder.length = 6 := by
    have h := hperm.length_eq
    simpa using h
  have hplen : (readyOrder.map Card.InitEvent.ready).length = 6 := by
    simpa using hlen
  refine ⟨?_, ?_, ?_, ?_, ?_, ?_⟩
  · intro i
    have hi : i ∈ readyOrder := hperm.mem_iff.mpr (List.mem_finRange i)
    exact List.mem_append_left _ (List.mem_map_of_mem _ hi)
  · intro p q ev i hp hq hev
    have hp6 : p < 6 := by
      by_contra hge
      push_neg at hge
      have hle : (readyOrder.map Card.InitEvent.ready).length ≤ p := by omega
      have hp' : (Card.initFollowUps cfg translationsOk)[p -
          (readyOrder.map Card.InitEvent.ready).length]? =
          some (Card.InitEvent.ready i) := by
        have h := hp
        simp only [Card.initConnectCallbackAsync] at h
        rwa [List.getElem?_append_right hle] at h
      have hmem : Card.InitEvent.ready i ∈ Card.initFollowUps cfg translationsOk :=
        List.getElem?_mem hp'
      have := initFollowUps_not_ready cfg translationsOk _ hmem
      simp [Card.isReadyEvent] at this
    have hq6 : 6 ≤ q := by
      by_contra hlt
      push_neg at hlt
      have hqlen : q < (readyOrder.map Card.InitEvent.ready).length := by omega
      have hq' : (readyOrder.map Card.InitEvent.ready)[q]? = some ev := by
        have h := hq
        simp only [Card.initConnectCallbackAsync] at h
        rwa [List.getElem?_append_left hqlen] at h
      rw [List.getElem?_map] at hq'
      rcases hro : readyOrder[q]? with _ | j
      · rw [hro] at hq'
        simp at hq'
      · rw [hro] at hq'
        simp at hq'
        rw [← hq'] at hev
        simp [Card.isFollowUpEvent] at hev
    omega
  · exact List.mem_append_right _ (by simp [Card.initFollowUps])
  · exact List.mem_append_right _ (by simp [Card.initFollowUps])
  · intro hok
    subst hok
    exact List.mem_append_right _ (by simp [Card.initFollowUps])
  · intro hsw
    exact List.mem_append_right _ (by simp [Card.initFollowUps, hsw])

/-- Witness for C2: concrete run with every promise resolving in listed
order, failing translations and weather disabled; the first readiness event
precedes the logging configuration at index 7, and the follow-ups are all
present. -/
theorem initConnectCallbackAsync_barrier_witness :
    (0 : ℕ) < 7 ∧
    Card.InitEvent.configureLogger (jsOrStr (none : Option String) "info") ∈
      Card.initConnectCallbackAsync ⟨none, some false⟩ (List.finRange 6) false ∧
    Card.InitEvent.logTranslationError ∈
      Card.initConnectCallbackAsync ⟨none, some false⟩ (List.finRange 6) false ∧
    Card.InitEvent.publishWeather Weather.All ∈
      Card.initConnectCallbackAsync ⟨none, some false⟩ (List.finRange 6) false := by
  have h := initConnectCallbackAsync_barrier ⟨none, some false⟩ (List.finRange 6) false
    (List.Perm.refl _)
  exact ⟨h.2.1 0 7 (Card.InitEvent.configureLogger (jsOrStr none "info")) 0
      (by decide) (by decide) (by decide),
    h.2.2.1, h.2.2.2.2.1 rfl, h.2.2.2.2.2 (by decide)⟩

/-! ### C8 -/

/-- The readiness prefix of the trace contains no suppression broadcast. -/
theorem filter_publish_map_ready (ro : List (Fin 6)) :
    (ro.map Card.InitEvent.ready).filter Card.isPublishEvent = [] := by
  induction ro with
  | nil => rfl
  | cons h t ih => simp [List.filter_cons, Card.isPublishEvent, ih]

/-- C8: with `showWeather = false` the trace contains exactly one
suppression broadcast — the `Weather.All` sentinel message — and with
`showWeather = true` it contains none; any broadcast sits at a position
at or past the end of the readiness prefix (after the barrier). -/
theorem suppression_broadcast_matches_config
    (cfg : Card.WallClockConfig) (readyOrder : List (Fin 6)) (translationsOk : Bool) :
    (cfg.showWeather = some false →
      (Card.initConnectCallbackAsync cfg readyOrder translationsOk).filter
        Card.isPublishEvent = [Card.InitEvent.publishWeather Weather.All]) ∧
    (cfg.showWeather = some true →
      (Card.initConnectCallbackAsync cfg readyOrder translationsOk).filter
        Card.isPublishEvent = []) ∧
    (∀ (p : ℕ) (ev : Card.InitEvent),
      (Card.initConnectCallbackAsync cfg readyOrder translationsOk)[p]? = some ev →
      Card.isPublishEvent ev = true → readyOrder.length ≤ p) := by
  refine ⟨?_, ?_, ?_⟩
  · intro hsw
    rcases translationsOk <;>
      simp [Card.initConnectCallbackAsync, Card.initFollowUps, List.filter_append,
        filter_publish_map_ready, hsw, jsTruthyBool, List.filter_cons,
        Card.isPublishEvent]
  · intro hsw
    rcases translationsOk <;>
      simp [Card.initConnectCallbackAsync, Card.initFollowUps, List.filter_append,
        filter_publish_map_ready, hsw, jsTruthyBool, List.filter_cons,
        Card.isPublishEvent]
  · intro p ev hp hev
    by_contra hlt
    push_neg at hlt
    have hqlen : p < (readyOrder.map Card.InitEvent.ready).length := by
      simpa using hlt
    have hp' : (readyOrder.map Card.InitEvent.ready)[p]? = some ev := by
      have h := hp
      simp only [Card.initConnectCallbackAsync] at h
      rwa [List.getElem?_append_left hqlen] at h
    rw [List.getElem?_map] at hp'
    rcases hro : readyOrder[p]? with _ | j
    · rw [hro] at hp'
      simp at hp'
    · rw [hro] at hp'
      simp at hp'
      rw [← hp'] at hev
      simp [Card.isPublishEvent] at hev

/-- Witness for C8: a disabled-weather run publishes the single sentinel
broadcast, an enabled-weather run publishes none. -/
theorem suppression_broadcast_matches_config_witness :
    (Card.initConnectCallbackAsync ⟨none, some false⟩ (List.finRange 6) true).filter
      Card.isPublishEvent = [Card.InitEvent.publishWeather Weather.All] ∧
    (Card.initConnectCallbackAsync ⟨none, some true⟩ (List.finRange 6) true).filter
      Card.isPublishEvent = [] :=
  ⟨(suppression_broadcast_matches_config ⟨none, some false⟩ (List.finRange 6) true).1 rfl,
   (suppression_broadcast_matches_config ⟨none, some true⟩ (List.finRange 6) true).2.1 rfl⟩

/-! ### C9 -/

/-- C9: the suppression guard tests JavaScript falsiness of
`showWeather`, so every configuration whose `showWeather` is not the
explicit boolean `true` — in particular one where it is unset — still
yields exactly one suppression broadcast after the barrier. -/
theorem suppression_broadcast_on_falsy_showWeather
    (cfg : Card.WallClockConfig) (readyOrder : List (Fin 6)) (translationsOk : Bool)
    (h : cfg.showWeather ≠ some true) :
    (Card.initConnectCallbackAsync cfg readyOrder translationsOk).filter
      Card.isPublishEvent = [Card.InitEvent.publishWeather Weather.All] := by
  have hsw : jsTruthyBool cfg.showWeather = false := by
    rcases hs : cfg.showWeather with _ | b
    · rfl
    · cases b
      · rfl
      · exact absurd hs h
  rcases translationsOk <;>
    simp [Card.initConnectCallbackAsync, Card.initFollowUps, List.filter_append,
      filter_publish_map_ready, hsw, List.filter_cons, Card.isPublishEvent]

/-- Witness for C9: a configuration with `showWeather` unset
(`undefined`) still triggers the single suppression broadcast. -/
theorem suppression_broadcast_on_falsy_showWeather_witness :
    (Card.initConnectCallbackAsync ⟨none, none⟩ (List.finRange 6) true).filter
      Card.isPublishEvent = [Card.InitEvent.publishWeather Weather.All] :=
  suppression_broadcast_on_falsy_showWeather ⟨none, none⟩ (List.finRange 6) true
    (by simp)
